import Mathlib

set_option autoImplicit false

namespace WorkspaceManager

/-! # Data model (workspace_manager/models.py)

JSON dictionaries are embedded as records of `Option` fields: `none` models an
absent key (or, for `working_dir`, a JSON `null`, which Python's `dict.get`
does not distinguish from absence).  Decoders that index a required key
(`data["id"]`) are modelled in `Except Unit`, the error being Python's raised
lookup failure. -/

/-- `WindowConfig` from models.py: window position and size. -/
structure WindowConfig where
  x : Int
  y : Int
  width : Int
  height : Int
deriving DecidableEq, Repr

/-- The JSON-dictionary shape produced/consumed by `WindowConfig.to_dict`/`from_dict`. -/
structure WindowDict where
  x : Option Int
  y : Option Int
  width : Option Int
  height : Option Int
deriving DecidableEq, Repr

/-- `WindowConfig.to_dict`. -/
def WindowConfig.to_dict (w : WindowConfig) : WindowDict :=
  ⟨some w.x, some w.y, some w.width, some w.height⟩

/-- The empty dictionary `{}` used as default for a missing `"window"` key. -/
def emptyWindowDict : WindowDict := ⟨none, none, none, none⟩

/-- `WindowConfig.from_dict`: each coordinate is defaulted independently via
`data.get(key, default)`. -/
def WindowConfig.from_dict (d : WindowDict) : WindowConfig :=
  ⟨d.x.getD 0, d.y.getD 0, d.width.getD 800, d.height.getD 600⟩

/-- `AppInstance` from models.py: one application instance in a workspace. -/
structure AppInstance where
  id : String
  exe : String
  args : List String
  working_dir : Option String
  virtual_desktop : Int
  window : WindowConfig
deriving DecidableEq, Repr

/-- The JSON-dictionary shape for an `AppInstance`. -/
structure AppDict where
  id : Option String
  exe : Option String
  args : Option (List String)
  working_dir : Option String
  virtual_desktop : Option Int
  window : Option WindowDict
deriving DecidableEq, Repr

/-- `AppInstance.to_dict`. -/
def AppInstance.to_dict (a : AppInstance) : AppDict :=
  ⟨some a.id, some a.exe, some a.args, a.working_dir, some a.virtual_desktop,
    some a.window.to_dict⟩

/-- `AppInstance.from_dict`: `data["id"]` and `data["exe"]` are required
(raising on absence); the rest use `data.get` with defaults. -/
def AppInstance.from_dict (d : AppDict) : Except Unit AppInstance :=
  match d.id, d.exe with
  | some i, some e =>
      Except.ok ⟨i, e, d.args.getD [], d.working_dir, d.virtual_desktop.getD 0,
        WindowConfig.from_dict (d.window.getD emptyWindowDict)⟩
  | _, _ => Except.error ()

/-- `Workspace` from models.py. -/
structure Workspace where
  name : String
  description : String
  apps : List AppInstance
deriving DecidableEq, Repr

/-- The JSON-dictionary shape for a `Workspace`. -/
structure WorkspaceDict where
  name : Option String
  description : Option String
  apps : Option (List AppDict)
deriving DecidableEq, Repr

/-- `Workspace.to_dict`. -/
def Workspace.to_dict (w : Workspace) : WorkspaceDict :=
  ⟨some w.name, some w.description, some (w.apps.map AppInstance.to_dict)⟩

/-- Decoding of the `"apps"` list: the Python list comprehension decodes in
order and propagates the first raised lookup failure. -/
def appsFromDicts : List AppDict → Except Unit (List AppInstance)
  | [] => Except.ok []
  | d :: ds => do
      let a ← AppInstance.from_dict d
      let rest ← appsFromDicts ds
      Except.ok (a :: rest)

/-- `Workspace.from_dict`: `data["name"]` is required; `description` defaults
to `""` and `apps` to `[]`. -/
def Workspace.from_dict (d : WorkspaceDict) : Except Unit Workspace :=
  match d.name with
  | none => Except.error ()
  | some n => do
      let apps ← appsFromDicts (d.apps.getD [])
      Except.ok ⟨n, d.description.getD "", apps⟩

/-- `Workspace.get_required_desktops`: `max(app.virtual_desktop) + 1`, or 1
with no apps. -/
def Workspace.get_required_desktops (w : Workspace) : Int :=
  match w.apps with
  | [] => 1
  | a :: rest => (rest.foldl (fun m b => max m b.virtual_desktop) a.virtual_desktop) + 1

theorem windowConfig_roundtrip (w : WindowConfig) :
    WindowConfig.from_dict w.to_dict = w := by
  cases w; rfl

theorem appInstance_roundtrip (a : AppInstance) :
    AppInstance.from_dict a.to_dict = Except.ok a := by
  cases a with
  | mk i e ar wd vd win => cases win; rfl

theorem appsFromDicts_roundtrip (l : List AppInstance) :
    appsFromDicts (l.map AppInstance.to_dict) = Except.ok l := by
  induction l with
  | nil => rfl
  | cons a rest ih =>
      simp only [List.map_cons, appsFromDicts, appInstance_roundtrip a, ih]
      rfl

/-- C7: for every `Workspace`, `to_dict` followed by `from_dict` yields the
identical workspace (hence name, description and app list are field-for-field
equal), and `get_required_desktops` is invariant across the round trip. -/
theorem c7_workspace_roundtrip (w : Workspace) :
    Workspace.from_dict w.to_dict = Except.ok w ∧
      (Workspace.from_dict w.to_dict).map Workspace.get_required_desktops =
        Except.ok w.get_required_desktops := by
  have h : Workspace.from_dict w.to_dict = Except.ok w := by
    cases w with
    | mk n d apps =>
        simp only [Workspace.to_dict, Workspace.from_dict, Option.getD,
          appsFromDicts_roundtrip apps]
        rfl
  exact ⟨h, by rw [h]; rfl⟩

/-- A concrete app dictionary with no `"window"` key, for C10. -/
def appDictNoWindow : AppDict :=
  ⟨some "app1", some "C:/x.exe", none, none, none, none⟩

/-- C10: decoding defaults each window coordinate independently
(`x` to 0, `y` to 0, `width` to 800, `height` to 600), so `{"x": 5}` decodes
to `WindowConfig(5, 0, 800, 600)`, and an app dictionary with no `"window"`
key decodes with window `WindowConfig(0, 0, 800, 600)`. -/
theorem c10_window_field_defaults (ox oy ow oh : Option Int) (d : AppDict)
    (hw : d.window = none) (a : AppInstance)
    (ha : AppInstance.from_dict d = Except.ok a) :
    WindowConfig.from_dict ⟨ox, oy, ow, oh⟩ =
        ⟨ox.getD 0, oy.getD 0, ow.getD 800, oh.getD 600⟩ ∧
      WindowConfig.from_dict ⟨some 5, none, none, none⟩ = ⟨5, 0, 800, 600⟩ ∧
      a.window = ⟨0, 0, 800, 600⟩ := by
  refine ⟨rfl, rfl, ?_⟩
  unfold AppInstance.from_dict at ha
  cases hid : d.id with
  | none => rw [hid] at ha; exact absurd ha (by simp)
  | some i =>
      cases hexe : d.exe with
      | none => rw [hid, hexe] at ha; exact absurd ha (by simp)
      | some e =>
          rw [hid, hexe] at ha
          have := Except.ok.inj ha
          rw [← this, hw]
          rfl

/-- Witness for C10 at `{"x": 5}` and at `appDictNoWindow`. -/
theorem c10_witness :
    WindowConfig.from_dict ⟨some 5, none, none, none⟩ = ⟨5, 0, 800, 600⟩ ∧
      (⟨"app1", "C:/x.exe", [], none, 0, ⟨0, 0, 800, 600⟩⟩ : AppInstance).window =
        ⟨0, 0, 800, 600⟩ := by
  have h := c10_window_field_defaults (some 5) none none none appDictNoWindow rfl
    ⟨"app1", "C:/x.exe", [], none, 0, ⟨0, 0, 800, 600⟩⟩ rfl
  exact ⟨h.2.1, h.2.2⟩

/-! # Virtual desktop layer (workspace_manager/virtual_desktops.py)

The external pyvda library is modelled by `VDWorld`: `query k` is the outcome
of the k-th call to `pyvda.get_virtual_desktops()` (`none` = the call raises,
`some n` = a list of `n` desktops); `createRaises k` says whether the k-th
desktop-creation attempt raises out of both the native create call and its
keyboard fallback; `moveRaises`/`goRaises` whether `AppView.move` /
`VirtualDesktop.go` raise; `currentDesktop` the (1-indexed) result of
`VirtualDesktop.current()` (`none` = raises).  Functions thread the query and
create counters; a raised `VirtualDesktopError` is `Except.error ()`. -/

/-- Model of the external pyvda capability's behavior. -/
structure VDWorld where
  query : Nat → Option Nat
  createRaises : Nat → Bool
  moveRaises : Bool
  goRaises : Bool
  currentDesktop : Option Nat

/-- `VirtualDesktopManager.get_desktop_count`: returns 1 when pyvda is
unavailable; otherwise queries pyvda and re-raises a failure as
`VirtualDesktopError`.  Returns the result and the next query counter. -/
def get_desktop_count (avail : Bool) (w : VDWorld) (qk : Nat) :
    Except Unit Nat × Nat :=
  if !avail then (Except.ok 1, qk)
  else
    match w.query qk with
    | none => (Except.error (), qk + 1)
    | some n => (Except.ok n, qk + 1)

/-- `VirtualDesktopManager.create_desktop`: all exceptions are caught and
converted to `false`; success is declared only when the re-queried count
strictly increased.  Returns the flag and the next query/create counters. -/
def create_desktop (avail : Bool) (w : VDWorld) (qk ck : Nat) :
    Bool × Nat × Nat :=
  if !avail then (false, qk, ck)
  else
    match w.query qk with
    | none => (false, qk + 1, ck)
    | some before =>
        if w.createRaises ck then (false, qk + 1, ck + 1)
        else
          match w.query (qk + 1) with
          | none => (false, qk + 2, ck + 1)
          | some after => (decide (after > before), qk + 2, ck + 1)

/-- The `for i in range(desktops_to_create)` loop of `ensure_desktop_count`:
fails fast when one creation fails. -/
def create_loop (avail : Bool) (w : VDWorld) :
    Nat → Nat → Nat → Bool × Nat × Nat
  | 0, qk, ck => (true, qk, ck)
  | n + 1, qk, ck =>
      match create_desktop avail w qk ck with
      | (false, qk2, ck2) => (false, qk2, ck2)
      | (true, qk2, ck2) => create_loop avail w n qk2 ck2

/-- `VirtualDesktopManager.ensure_desktop_count`: when pyvda is unavailable,
returns `required_count <= 1`; otherwise queries the count (re-raising a
failure as `VirtualDesktopError`), creates missing desktops one at a time,
and re-verifies the final count (again re-raising a query failure). -/
def ensure_desktop_count (avail : Bool) (required : Int) (w : VDWorld)
    (qk ck : Nat) : Except Unit Bool × Nat × Nat :=
  if !avail then (Except.ok (decide (required ≤ 1)), qk, ck)
  else
    match w.query qk with
    | none => (Except.error (), qk + 1, ck)
    | some current =>
        if (current : Int) ≥ required then (Except.ok true, qk + 1, ck)
        else
          match create_loop avail w (required - (current : Int)).toNat (qk + 1) ck with
          | (false, qk2, ck2) => (Except.ok false, qk2, ck2)
          | (true, qk2, ck2) =>
              match w.query qk2 with
              | none => (Except.error (), qk2 + 1, ck2)
              | some final =>
                  (Except.ok (decide ((final : Int) ≥ required)), qk2 + 1, ck2)

/-- `VirtualDesktopManager.move_window_to_desktop`: when pyvda is unavailable,
returns `desktop_index == 0`; otherwise validates the index against the live
desktop list and attempts the move, catching every exception as `false`. -/
def move_window_to_desktop (avail : Bool) (w : VDWorld) (hwnd : Nat)
    (desktop_index : Int) (qk : Nat) : Bool × Nat :=
  if !avail then (decide (desktop_index = 0), qk)
  else
    match w.query qk with
    | none => (false, qk + 1)
    | some len =>
        if desktop_index ≥ (len : Int) then (false, qk + 1)
        else if w.moveRaises then (false, qk + 1)
        else (true, qk + 1)

/-- `VirtualDesktopManager.get_current_desktop`: 0 when pyvda is unavailable
or when the underlying query raises; otherwise `current.number - 1`. -/
def get_current_desktop (avail : Bool) (w : VDWorld) : Int :=
  if !avail then 0
  else
    match w.currentDesktop with
    | none => 0
    | some n => (n : Int) - 1

/-- `VirtualDesktopManager.switch_to_desktop`: when pyvda is unavailable,
returns `desktop_index == 0`; otherwise validates the index, performs the
switch (exceptions caught as `false`) and verifies it by re-reading the
current desktop. -/
def switch_to_desktop (avail : Bool) (w : VDWorld) (desktop_index : Int)
    (qk : Nat) : Bool × Nat :=
  if !avail then (decide (desktop_index = 0), qk)
  else
    match w.query qk with
    | none => (false, qk + 1)
    | some len =>
        if desktop_index ≥ (len : Int) then (false, qk + 1)
        else if w.goRaises then (false, qk + 1)
        else (decide (get_current_desktop avail w = desktop_index), qk + 1)

/-- A world in which every underlying pyvda desktop query raises. -/
def vdWorldAllRaise : VDWorld :=
  ⟨fun _ => none, fun _ => false, false, false, none⟩

/-- C1 counterexample: with the capability available and the underlying
desktop query raising, both `get_desktop_count` and `ensure_desktop_count`
raise `VirtualDesktopError` past their boundary — the claim that they never
raise for any manager state is false. -/
theorem c1_counterexample :
    (get_desktop_count true vdWorldAllRaise 0).1 = Except.error () ∧
      (ensure_desktop_count true 1 vdWorldAllRaise 0 0).1 = Except.error () := by
  constructor <;> rfl

/-- C1 (amended): `get_desktop_count` and `ensure_desktop_count` never raise
when the virtual-desktop capability is unavailable (they return a sentinel /
boolean); when the capability is available and the underlying desktop query
raises, both raise `VirtualDesktopError`. -/
theorem c1_amended (w : VDWorld) (required : Int) (qk ck : Nat)
    (h : w.query qk = none) :
    (get_desktop_count false w qk).1 = Except.ok 1 ∧
      (ensure_desktop_count false required w qk ck).1 =
        Except.ok (decide (required ≤ 1)) ∧
      (get_desktop_count true w qk).1 = Except.error () ∧
      (ensure_desktop_count true required w qk ck).1 = Except.error () := by
  refine ⟨rfl, rfl, ?_, ?_⟩
  · simp [get_desktop_count, h]
  · simp [ensure_desktop_count, h]

/-- Witness for C1 (amended) at a concrete world and counters. -/
theorem c1_amended_witness :
    (get_desktop_count false vdWorldAllRaise 0).1 = Except.ok 1 ∧
      (ensure_desktop_count false 2 vdWorldAllRaise 0 0).1 =
        Except.ok (decide ((2 : Int) ≤ 1)) ∧
      (get_desktop_count true vdWorldAllRaise 0).1 = Except.error () ∧
      (ensure_desktop_count true 2 vdWorldAllRaise 0 0).1 = Except.error () :=
  c1_amended vdWorldAllRaise 2 0 0 rfl

/-- C6: with the virtual-desktop capability flagged unavailable,
`get_desktop_count` returns 1, `ensure_desktop_count n` succeeds exactly when
`n ≤ 1`, and for every window handle `h`, `move_window_to_desktop h i`
succeeds exactly when `i = 0` and `switch_to_desktop i` succeeds exactly when
`i = 0`. -/
theorem c6_unavailable_degradation (w : VDWorld) (n i : Int) (h qk ck : Nat) :
    (get_desktop_count false w qk).1 = Except.ok 1 ∧
      ((ensure_desktop_count false n w qk ck).1 = Except.ok true ↔ n ≤ 1) ∧
      ((move_window_to_desktop false w h i qk).1 = true ↔ i = 0) ∧
      ((switch_to_desktop false w i qk).1 = true ↔ i = 0) := by
  refine ⟨rfl, ?_, ?_, ?_⟩
  · simp [ensure_desktop_count]
  · simp [move_window_to_desktop]
  · simp [switch_to_desktop]

/-- Witness for C6 at a concrete world, `n = 2`, `i = 1`, handle 42. -/
theorem c6_witness :
    (get_desktop_count false vdWorldAllRaise 0).1 = Except.ok 1 ∧
      ((ensure_desktop_count false 2 vdWorldAllRaise 0 0).1 = Except.ok true ↔
        (2 : Int) ≤ 1) ∧
      ((move_window_to_desktop false vdWorldAllRaise 42 1 0).1 = true ↔
        (1 : Int) = 0) ∧
      ((switch_to_desktop false vdWorldAllRaise 1 0).1 = true ↔ (1 : Int) = 0) :=
  c6_unavailable_degradation vdWorldAllRaise 2 1 42 0 0

/-! # Configuration store (workspace_manager/config.py)

The file system is modelled by the contents of the two paths `ConfigManager.save`
touches: the target configuration file and its `.json.bak` sibling
(`none` = the path does not exist).  `Path.replace` is a rename: the source
ceases to exist and the destination takes its content.  Whether the JSON
write step fails is an input (`writeFails`); a raised `ConfigError` is
reported as a boolean / `CfgErr` alongside the resulting state. -/

/-- Contents of the target file and of its `.json.bak` sibling. -/
structure FSState (α : Type) where
  target : Option α
  bak : Option α
deriving DecidableEq, Repr

/-- `ConfigManager.save`: if the target exists, rename it to `.json.bak`;
then write the new content.  If the write fails, rename the `.bak` (when
present) back over the target and raise `ConfigError` (the returned flag). -/
def config_save {α : Type} (fs : FSState α) (newContent : α)
    (writeFails : Bool) : FSState α × Bool :=
  let fs1 : FSState α :=
    match fs.target with
    | some c => ⟨none, some c⟩
    | none => fs
  if writeFails then
    match fs1.bak with
    | some c => (⟨some c, none⟩, true)
    | none => (fs1, true)
  else (⟨some newContent, fs1.bak⟩, false)

/-- C3: on every save with a pre-existing target file, the target is renamed
to its `.json.bak` sibling and the new JSON written in its place; if the
write step fails, the `.bak` is renamed back over the target, restoring the
prior content, and a configuration error is raised. -/
theorem c3_save_backup_restore {α : Type} (fs : FSState α) (c newContent : α)
    (h : fs.target = some c) :
    config_save fs newContent false = (⟨some newContent, some c⟩, false) ∧
      config_save fs newContent true = (⟨some c, none⟩, true) := by
  constructor <;> simp [config_save, h]

/-- Witness for C3 at a concrete file system. -/
theorem c3_witness :
    config_save (⟨some "old", none⟩ : FSState String) "new" false =
        (⟨some "new", some "old"⟩, false) ∧
      config_save (⟨some "old", none⟩ : FSState String) "new" true =
        (⟨some "old", none⟩, true) :=
  c3_save_backup_restore ⟨some "old", none⟩ "old" "new" rfl

/-- `WorkspaceCollection.get_workspace`: first workspace with that name. -/
def collection_get_workspace (l : List Workspace) (name : String) :
    Option Workspace :=
  l.find? (fun ws => ws.name == name)

/-- `WorkspaceCollection.remove_workspace`'s filtering: keep every workspace
whose name differs. -/
def collection_remove_workspace (l : List Workspace) (name : String) :
    List Workspace :=
  l.filter (fun ws => ws.name != name)

/-- In-memory state of a `ConfigManager` with a loaded collection, plus the
on-disk state (file contents are the collection's dictionary form). -/
structure ConfigState where
  collection : List Workspace
  fs : FSState (List WorkspaceDict)
deriving Repr

/-- The two `ConfigError` cases `add_workspace` can raise. -/
inductive CfgErr where
  | nameExists
  | saveFailed
deriving DecidableEq, Repr

/-- `ConfigManager.add_workspace` (collection already loaded): raises when a
same-named workspace exists and `overwrite` is false; otherwise removes any
same-named workspaces, appends the new one, and saves (a save failure raises
after the in-memory mutation). -/
def config_add_workspace (st : ConfigState) (w : Workspace) (overwrite : Bool)
    (writeFails : Bool) : ConfigState × Option CfgErr :=
  match collection_get_workspace st.collection w.name, overwrite with
  | some _, false => (st, some CfgErr.nameExists)
  | existing, _ =>
      let col1 :=
        match existing with
        | some _ => collection_remove_workspace st.collection w.name
        | none => st.collection
      let col2 := col1 ++ [w]
      let saved := config_save st.fs (col2.map Workspace.to_dict) writeFails
      (⟨col2, saved.1⟩, if saved.2 then some CfgErr.saveFailed else none)

theorem collection_remove_no_name (l : List Workspace) (name : String) :
    (collection_remove_workspace l name).filter (fun ws => ws.name == name) = [] := by
  induction l with
  | nil => rfl
  | cons a rest ih =>
      by_cases h : a.name = name
      · simpa [collection_remove_workspace, List.filter_cons, h] using ih
      · simpa [collection_remove_workspace, List.filter_cons, h] using ih

/-- C4: with a loaded collection, `add_workspace w` with `overwrite = false`
raises a configuration error when a workspace named `w.name` exists, leaving
the in-memory collection and the on-disk file unchanged; with
`overwrite = true` it removes every same-named workspace, appends `w`, and
saves, so afterwards the collection contains exactly one workspace named
`w.name` — the new one. -/
theorem c4_add_workspace (st : ConfigState) (w e : Workspace)
    (hex : collection_get_workspace st.collection w.name = some e) :
    config_add_workspace st w false false = (st, some CfgErr.nameExists) ∧
      (let res := config_add_workspace st w true false
       res.2 = none ∧
         res.1.collection = collection_remove_workspace st.collection w.name ++ [w] ∧
         res.1.collection.filter (fun ws => ws.name == w.name) = [w] ∧
         res.1.fs.target = some (res.1.collection.map Workspace.to_dict)) := by
  constructor
  · simp [config_add_workspace, hex]
  · have hcol : (config_add_workspace st w true false).1.collection =
        collection_remove_workspace st.collection w.name ++ [w] := by
      simp [config_add_workspace, hex]
    refine ⟨?_, hcol, ?_, ?_⟩
    · simp [config_add_workspace, hex, config_save]
    · rw [hcol, List.filter_append, collection_remove_no_name]
      simp
    · rw [hcol]
      simp [config_add_workspace, hex, config_save]

/-- A concrete pre-existing workspace named `"dev"` for the C4 witness. -/
def devOld : Workspace := ⟨"dev", "old", []⟩

/-- A replacement workspace named `"dev"` for the C4 witness. -/
def devNew : Workspace := ⟨"dev", "new", []⟩

/-- A concrete loaded configuration state for the C4 witness. -/
def devState : ConfigState :=
  ⟨[devOld], ⟨some [devOld.to_dict], none⟩⟩

/-- Witness for C4 at a collection already containing a workspace `"dev"`. -/
theorem c4_witness :
    config_add_workspace devState devNew false false =
        (devState, some CfgErr.nameExists) ∧
      (let res := config_add_workspace devState devNew true false
       res.2 = none ∧
         res.1.collection =
           collection_remove_workspace devState.collection devNew.name ++ [devNew] ∧
         res.1.collection.filter (fun ws => ws.name == devNew.name) = [devNew] ∧
         res.1.fs.target = some (res.1.collection.map Workspace.to_dict)) :=
  c4_add_workspace devState devNew devOld rfl

/-! # OS window layer (workspace_manager/windows_api.py)

`move_window`'s positioning attempts only affect timing and logging; its
return value is computed from the final `GetWindowRect` readback, embedded
here as `move_window_result` over the window's class name, the requested
rectangle `(x, y, width, height)`, and the read-back bounding box
`(left, top, right, bottom)`. -/

/-- The recognized console-hosting window classes from `move_window`. -/
def console_classes : List String :=
  ["ConsoleWindowClass", "PseudoConsoleWindow",
   "CASCADIA_HOSTING_WINDOW_CLASS", "Cascadia_HOSTING_WINDOW_CLASS"]

/-- The final verification of `move_window`: tolerance 100 for console-class
windows, 50 otherwise; success when both position and size are within
tolerance, or — when size is within tolerance and position is not — exactly
for console-class windows; otherwise failure. -/
def move_window_result (class_name : String) (x y width height : Int)
    (l t r b : Int) : Bool :=
  let is_console := console_classes.contains class_name
  let tolerance : Int := if is_console then 100 else 50
  let position_ok := decide (|l - x| < tolerance) && decide (|t - y| < tolerance)
  let size_ok := decide (|r - l - width| < tolerance) &&
    decide (|b - t - height| < tolerance)
  if position_ok && size_ok then true
  else if size_ok && !position_ok then is_console
  else false

/-- C5: `move_window` compares the read-back rectangle with the requested one
under tolerance 100 (console-class) / 50 (other); within-tolerance position
and size succeed; size-only success holds exactly for console-class windows;
any other mismatch fails. -/
theorem c5_move_window_tolerance (class_name : String) (x y width height l t b r : Int) :
    (move_window_result class_name x y width height l t r b = true ↔
      (let tolerance : Int := if class_name ∈ console_classes then 100 else 50
       let position_ok := |l - x| < tolerance ∧ |t - y| < tolerance
       let size_ok := |r - l - width| < tolerance ∧ |b - t - height| < tolerance
       (position_ok ∧ size_ok) ∨
         (size_ok ∧ ¬position_ok ∧ class_name ∈ console_classes))) := by
  simp only [move_window_result, List.contains, List.elem_eq_mem]
  by_cases hc : class_name ∈ console_classes <;>
    by_cases hp1 : |l - x| < (if class_name ∈ console_classes then (100 : Int) else 50) <;>
      by_cases hp2 : |t - y| < (if class_name ∈ console_classes then (100 : Int) else 50) <;>
        by_cases hs1 : |r - l - width| < (if class_name ∈ console_classes then (100 : Int) else 50) <;>
          by_cases hs2 : |b - t - height| < (if class_name ∈ console_classes then (100 : Int) else 50) <;>
            simp_all

/-- C5 check: the spec's own example — a console-class readback off by 80 in
position and 0 in size succeeds; the identical non-console readback fails. -/
theorem c5_spec_example :
    move_window_result "ConsoleWindowClass" 0 0 800 600 80 80 880 680 = true ∧
      move_window_result "SomeAppWindow" 0 0 800 600 80 80 880 680 = false := by
  constructor <;> rfl

/-! # Workspace capture (workspace_manager/capture.py)

`_filter_system_windows` filters the enumerated `WindowInfo` list.  Python's
`Path(p).name` is embedded as the component after the last path separator,
and Python truthiness of `window.exe_path` means the filters are applied only
when the path is present and non-empty. -/

/-- `WindowInfo` from windows_api.py (runtime window record). -/
structure WindowInfo where
  hwnd : Nat
  title : String
  class_name : String
  rect : Int × Int × Int × Int
  pid : Nat
  exe_path : Option String
deriving DecidableEq, Repr

/-- `Path(p).name`: the component after the last path separator. -/
def pathName (p : String) : String :=
  ((p.splitOn "/").flatMap (fun s => s.splitOn "\\")).getLastD p

/-- Python's whitespace set for `str.strip` (ASCII part). -/
def isPyWhitespace (c : Char) : Bool :=
  c = ' ' || c = '\t' || c = '\n' || c = '\x0d' || c = '\x0b' || c = '\x0c'

/-- Python's `str.strip()`: drop whitespace from both ends (structurally
recursive so that concrete instances evaluate). -/
def pyStrip (s : String) : String :=
  String.mk (((s.data.dropWhile isPyWhitespace).reverse.dropWhile
    isPyWhitespace).reverse)

/-- The fixed shell-surface executable names of `_filter_system_windows`. -/
def system_processes : List String :=
  ["explorer.exe", "searchui.exe", "searchapp.exe",
   "shellexperiencehost.exe", "systemsettings.exe",
   "textinputhost.exe", "lockapp.exe"]

/-- The per-window decision of `_filter_system_windows`: the two drop rules
run only under `if window.exe_path:` (truthy — present and non-empty); every
other window is appended. -/
def keep_window (w : WindowInfo) : Bool :=
  match w.exe_path with
  | some p =>
      if p = "" then true
      else
        let exe_name := (pathName p).toLower
        if system_processes.contains exe_name then false
        else if w.title = "" ∨ pyStrip w.title = "" then false
        else true
  | none => true

/-- `WorkspaceCapturer._filter_system_windows`. -/
def filter_system_windows (ws : List WindowInfo) : List WindowInfo :=
  ws.filter keep_window

/-- The filter as the claim words it (for comparison): drop every window
owned by a shell-surface executable and every window whose title is blank. -/
def c9_claim_keep (w : WindowInfo) : Bool :=
  let owned_by_shell :=
    match w.exe_path with
    | some p => system_processes.contains ((pathName p).toLower)
    | none => false
  !owned_by_shell && !(pyStrip w.title = "")

/-- The claim's filter over a window list. -/
def c9_claim_filter (ws : List WindowInfo) : List WindowInfo :=
  ws.filter c9_claim_keep

/-- A window with a blank title and no resolved executable path. -/
def blankUntitled : WindowInfo := ⟨10, "", "SomeClass", (0, 0, 200, 200), 99, none⟩

/-- C9 counterexample: a blank-titled window with no resolved executable path
is kept by the code's filter, though the claim says every blank-titled window
is dropped. -/
theorem c9_counterexample :
    filter_system_windows [blankUntitled] = [blankUntitled] ∧
      c9_claim_filter [blankUntitled] = [] ∧
      pyStrip blankUntitled.title = "" := by
  refine ⟨rfl, by decide, by decide⟩

theorem keep_window_iff (w : WindowInfo) :
    keep_window w = true ↔
      ∀ p, w.exe_path = some p → p ≠ "" →
        ((pathName p).toLower ∉ system_processes ∧
          ¬(w.title = "" ∨ pyStrip w.title = "")) := by
  cases hep : w.exe_path with
  | none => simp [keep_window, hep]
  | some p =>
      by_cases hp : p = ""
      · simp [keep_window, hep, hp]
      · by_cases hsys : system_processes.contains ((pathName p).toLower)
        · simp only [List.contains, List.elem_eq_mem, decide_eq_true_eq] at hsys
          simp [keep_window, hep, hp, hsys, List.contains, List.elem_eq_mem]
        · simp only [List.contains, List.elem_eq_mem, decide_eq_true_eq] at hsys
          by_cases ht : w.title = "" ∨ pyStrip w.title = "" <;>
            simp [keep_window, hep, hp, hsys, ht, List.contains, List.elem_eq_mem]

/-- C9 (amended): the non-interactive default capture filter keeps windows in
order, dropping exactly those windows that have a present, non-empty resolved
executable path and are either owned by one of the fixed shell-surface
executables (case-insensitive) or have an empty/blank title; windows without
a resolved executable path are always kept. -/
theorem c9_amended (ws : List WindowInfo) (w : WindowInfo) :
    w ∈ filter_system_windows ws ↔
      w ∈ ws ∧ ∀ p, w.exe_path = some p → p ≠ "" →
        ((pathName p).toLower ∉ system_processes ∧
          ¬(w.title = "" ∨ pyStrip w.title = "")) := by
  rw [filter_system_windows, List.mem_filter, keep_window_iff]

/-! # Workspace launcher (workspace_manager/launcher.py)

`_launch_app`'s interaction with the OS is modelled by `AppLaunchEnv`:
`spawn` is the outcome of process creation (`Except.error msg` = an exception
—  file-not-found, permission-denied or other — escaping the resolution /
`Popen` phase, caught by `_launch_app`'s handlers); `findByPid k` / `findNew k`
are the outcomes of the two window-location strategies on the k-th retry
attempt.  Every call after a successful spawn returns a boolean or optional
result (never raises), so the try-block then completes; those calls are
recorded as a `LaunchAction` trace so that "no positioning is attempted" is
observable. -/

/-- `LaunchResult` from launcher.py. -/
structure LaunchResult where
  app_id : String
  success : Bool
  pid : Option Nat
  hwnd : Option Nat
  error : Option String
deriving DecidableEq, Repr

/-- OS-effecting steps of `_launch_app`, in order of execution. -/
inductive LaunchAction where
  | switchDesktop (i : Int)
  | spawnProc
  | moveToDesktop (h : Nat) (i : Int)
  | restoreWin (h : Nat)
  | moveWin (h : Nat)
  | probe (h : Nat)
deriving DecidableEq, Repr

/-- Environment of one `_launch_app` call. -/
structure AppLaunchEnv where
  spawn : Except String Nat
  findByPid : Nat → Option Nat
  findNew : Nat → Option Nat
  isWindowsTerminal : Bool

/-- The window-location retry loop of `_launch_app`: on each attempt, first
find-by-pid, then the new-window-since-snapshot comparison. -/
def find_window_loop (env : AppLaunchEnv) : Nat → Nat → Option Nat
  | _, 0 => none
  | k, fuel + 1 =>
      match env.findByPid k with
      | some h => some h
      | none =>
          match env.findNew k with
          | some h => some h
          | none => find_window_loop env (k + 1) fuel

/-- The note recorded when no window was detected. -/
def windowNotDetectedNote : String :=
  "Window not detected (app may be running in background or loading)"

/-- The note recorded for a dry-run result. -/
def dryRunNote : String := "Dry run - not launched"

/-- `WorkspaceLauncher._launch_app`: desktop switch (unless skipped), spawn,
window location with 3 retries (5 for Windows Terminal), then — only when a
window was found — desktop move, restore, move/resize and responsiveness
probe.  A spawn exception yields a failed result; a missing window still
yields success with a note. -/
def launch_app (env : AppLaunchEnv) (app : AppInstance) (desktop_index : Int)
    (skip_desktop_switch : Bool) : LaunchResult × List LaunchAction :=
  let pre : List LaunchAction :=
    if skip_desktop_switch then [] else [LaunchAction.switchDesktop desktop_index]
  match env.spawn with
  | Except.error msg => (⟨app.id, false, none, none, some msg⟩, pre)
  | Except.ok pid =>
      let max_retries := if env.isWindowsTerminal then 5 else 3
      match find_window_loop env 0 max_retries with
      | none =>
          (⟨app.id, true, some pid, none, some windowNotDetectedNote⟩,
            pre ++ [LaunchAction.spawnProc])
      | some hwnd =>
          (⟨app.id, true, some pid, some hwnd, none⟩,
            pre ++ [LaunchAction.spawnProc,
              LaunchAction.moveToDesktop hwnd desktop_index,
              LaunchAction.restoreWin hwnd, LaunchAction.moveWin hwnd,
              LaunchAction.probe hwnd])

/-- Insertion into a sorted list of desktop indices. -/
def insort (k : Int) : List Int → List Int
  | [] => [k]
  | x :: xs => if k ≤ x then k :: x :: xs else x :: insort k xs

/-- Ascending sort of desktop indices (`sorted(grouped.keys())`). -/
def sortInts (l : List Int) : List Int := l.foldr insort []

/-- `WorkspaceLauncher._group_apps_by_desktop` followed by the launcher's
`sorted` iteration: distinct desktop indices in ascending order, each with
its apps in declaration order. -/
def group_apps_by_desktop (apps : List AppInstance) : List (Int × List AppInstance) :=
  (sortInts ((apps.map (fun a => a.virtual_desktop)).dedup)).map
    (fun k => (k, apps.filter (fun a => a.virtual_desktop = k)))

/-- `WorkspaceLauncher.launch_workspace`: empty workspace succeeds trivially;
otherwise each app of each desktop group is launched (desktop switch skipped,
done once per group) or dry-run recorded, and overall success is
`len(critical_failures) == 0`. -/
def launch_workspace (envOf : String → AppLaunchEnv) (ws : Workspace)
    (dry_run : Bool) : Bool × List LaunchResult :=
  if ws.apps.isEmpty then (true, [])
  else
    let results :=
      (group_apps_by_desktop ws.apps).flatMap (fun g =>
        g.2.map (fun a =>
          if dry_run then ⟨a.id, true, none, none, some dryRunNote⟩
          else (launch_app (envOf a.id) a g.1 true).1))
    (((results.filter (fun r => !r.success)).length == 0 : Bool), results)

theorem no_failures_iff (l : List LaunchResult) :
    (((l.filter (fun r => !r.success)).length == 0 : Bool) = true ↔
      ∀ r ∈ l, r.success = true) := by
  rw [beq_iff_eq, List.length_eq_zero, List.filter_eq_nil]
  simp

/-- C2: when process creation succeeds but no window is located after all
find attempts, the `LaunchResult` is a success with no window handle, the
explanatory note, and no positioning action; `launch_workspace` succeeds
exactly when no result has `success = false`; and a per-app result is a
failure exactly when an exception escaped the launch sequence. -/
theorem c2_no_window_still_success (env : AppLaunchEnv) (app : AppInstance)
    (d : Int) (skip : Bool) (pid : Nat)
    (h1 : env.spawn = Except.ok pid)
    (h2 : find_window_loop env 0 (if env.isWindowsTerminal then 5 else 3) = none)
    (envOf : String → AppLaunchEnv) (ws : Workspace) (dry : Bool) :
    (launch_app env app d skip).1.success = true ∧
      (launch_app env app d skip).1.hwnd = none ∧
      (launch_app env app d skip).1.error = some windowNotDetectedNote ∧
      (launch_app env app d skip).2 =
        (if skip then [] else [LaunchAction.switchDesktop d]) ++
          [LaunchAction.spawnProc] ∧
      ((launch_workspace envOf ws dry).1 = true ↔
        ∀ r ∈ (launch_workspace envOf ws dry).2, r.success = true) ∧
      (∀ (env2 : AppLaunchEnv) (a2 : AppInstance) (d2 : Int) (s2 : Bool),
        (launch_app env2 a2 d2 s2).1.success = false ↔
          ∃ msg, env2.spawn = Except.error msg) := by
  refine ⟨?_, ?_, ?_, ?_, ?_, ?_⟩
  · simp [launch_app, h1, h2]
  · simp [launch_app, h1, h2]
  · simp [launch_app, h1, h2]
  · simp [launch_app, h1, h2]
  · by_cases he : ws.apps.isEmpty
    · simp [launch_workspace, he]
    · simp only [launch_workspace, he, if_neg, Bool.false_eq_true,
        if_false]
      exact no_failures_iff _
  · intro env2 a2 d2 s2
    cases hsp : env2.spawn with
    | error msg => simp [launch_app, hsp]
    | ok p =>
        cases hf : find_window_loop env2 0 (if env2.isWindowsTerminal then 5 else 3) with
        | none => simp [launch_app, hsp, hf]
        | some h => simp [launch_app, hsp, hf]

/-- Environment for the C2 witness: spawn succeeds, no window ever found. -/
def envNoWindow : AppLaunchEnv :=
  ⟨Except.ok 7, fun _ => none, fun _ => none, false⟩

/-- A one-app workspace for the C2 witness. -/
def wsOneApp : Workspace :=
  ⟨"w", "", [⟨"a", "C:/x.exe", [], none, 0, ⟨0, 0, 800, 600⟩⟩]⟩

/-- Witness for C2 at a concrete environment and workspace. -/
theorem c2_witness :
    (launch_app envNoWindow ⟨"a", "C:/x.exe", [], none, 0, ⟨0, 0, 800, 600⟩⟩ 0 true).1.success = true ∧
      (launch_app envNoWindow ⟨"a", "C:/x.exe", [], none, 0, ⟨0, 0, 800, 600⟩⟩ 0 true).1.hwnd = none ∧
      (launch_app envNoWindow ⟨"a", "C:/x.exe", [], none, 0, ⟨0, 0, 800, 600⟩⟩ 0 true).1.error = some windowNotDetectedNote ∧
      (launch_app envNoWindow ⟨"a", "C:/x.exe", [], none, 0, ⟨0, 0, 800, 600⟩⟩ 0 true).2 =
        (if true then [] else [LaunchAction.switchDesktop 0]) ++
          [LaunchAction.spawnProc] ∧
      ((launch_workspace (fun _ => envNoWindow) wsOneApp false).1 = true ↔
        ∀ r ∈ (launch_workspace (fun _ => envNoWindow) wsOneApp false).2,
          r.success = true) ∧
      (∀ (env2 : AppLaunchEnv) (a2 : AppInstance) (d2 : Int) (s2 : Bool),
        (launch_app env2 a2 d2 s2).1.success = false ↔
          ∃ msg, env2.spawn = Except.error msg) :=
  c2_no_window_still_success envNoWindow
    ⟨"a", "C:/x.exe", [], none, 0, ⟨0, 0, 800, 600⟩⟩ 0 true 7 rfl rfl
    (fun _ => envNoWindow) wsOneApp false

/-- `WorkspaceLauncher.get_failed_apps`: ids of every result whose success
flag is false. -/
def get_failed_ids (results : List LaunchResult) : List String :=
  (results.filter (fun r => !r.success)).map (fun r => r.app_id)

/-- The apps `retry_failed_apps` re-attempts: workspace apps whose id occurs
among the failed ids. -/
def retried_apps (ws : Workspace) (results : List LaunchResult) :
    List AppInstance :=
  ws.apps.filter (fun a => (get_failed_ids results).contains a.id)

/-- `WorkspaceLauncher.retry_failed_apps`: with no failed ids, return
immediately leaving the results untouched; otherwise remove every result
entry whose id is among the failed ids, re-launch the matching workspace
apps (fresh desktop switch each), append the fresh results, and report
whether all retried apps succeeded. -/
def retry_failed_apps (ws : Workspace) (results : List LaunchResult)
    (envOf : String → AppLaunchEnv) : List LaunchResult × Bool :=
  let failed_ids := get_failed_ids results
  if failed_ids.isEmpty then (results, true)
  else
    let failed_apps := ws.apps.filter (fun a => failed_ids.contains a.id)
    let kept := results.filter (fun r => !(failed_ids.contains r.app_id))
    let fresh := failed_apps.map
      (fun a => (launch_app (envOf a.id) a a.virtual_desktop false).1)
    (kept ++ fresh, fresh.all (fun r => r.success))

/-- The most recent (last) result entry carrying the given app id. -/
def most_recent_result (results : List LaunchResult) (i : String) :
    Option LaunchResult :=
  (results.filter (fun r => r.app_id == i)).getLast?

/-- The app `"a"` of the C8 counterexample. -/
def appA : AppInstance := ⟨"a", "C:/a.exe", [], none, 0, ⟨0, 0, 800, 600⟩⟩

/-- A workspace containing only `appA`. -/
def wsA : Workspace := ⟨"w", "", [appA]⟩

/-- A prior results list holding two entries for `"a"`: an older failure and
a most-recent success. -/
def resultsDup : List LaunchResult :=
  [⟨"a", false, none, none, none⟩, ⟨"a", true, none, none, none⟩]

/-- C8 counterexample: with a prior results list whose most recent entry for
`"a"` is a success (but an older entry failed), the retry pass re-attempts
`"a"` anyway — the set of re-attempted apps is not "those whose most recent
result failed". -/
theorem c8_counterexample :
    retried_apps wsA resultsDup = [appA] ∧
      (most_recent_result resultsDup "a").map (fun r => r.success) = some true := by
  constructor <;> decide

theorem launch_app_app_id (env : AppLaunchEnv) (a : AppInstance) (d : Int)
    (s : Bool) : (launch_app env a d s).1.app_id = a.id := by
  cases hsp : env.spawn with
  | error msg => simp [launch_app, hsp]
  | ok p =>
      cases hf : find_window_loop env 0 (if env.isWindowsTerminal then 5 else 3) with
      | none => simp [launch_app, hsp, hf]
      | some h => simp [launch_app, hsp, hf]

theorem mem_failed_ids_iff (results : List LaunchResult)
    (hnd : (results.map (fun r => r.app_id)).Nodup)
    (r : LaunchResult) (hr : r ∈ results) :
    r.app_id ∈ get_failed_ids results ↔ r.success = false := by
  constructor
  · intro h
    obtain ⟨r2, hr2, hid⟩ := List.mem_map.mp h
    have hr2mem : r2 ∈ results := (List.mem_filter.mp hr2).1
    have hfail : r2.success = false := by
      have := (List.mem_filter.mp hr2).2
      simpa using this
    have : r2 = r := List.inj_on_of_nodup_map hnd hr2mem hr hid
    rwa [← this]
  · intro h
    exact List.mem_map.mpr ⟨r, List.mem_filter.mpr ⟨hr, by simp [h]⟩, rfl⟩

theorem filter_app_id_singleton (results : List LaunchResult)
    (hnd : (results.map (fun r => r.app_id)).Nodup)
    (r : LaunchResult) (hr : r ∈ results) :
    results.filter (fun x => x.app_id == r.app_id) = [r] := by
  induction results with
  | nil => cases hr
  | cons b t ih =>
      rw [List.map_cons, List.nodup_cons] at hnd
      rcases List.mem_cons.mp hr with h | h
      · subst h
        rw [List.filter_cons_of_pos (by simp)]
        have : t.filter (fun x => x.app_id == r.app_id) = [] := by
          refine List.filter_eq_nil_iff.mpr ?_
          intro x hx hbx
          exact hnd.1 (List.mem_map.mpr ⟨x, hx, by simpa using hbx⟩)
        rw [this]
      · have hne : (b.app_id == r.app_id) = false := by
          refine beq_eq_false_iff_ne.mpr ?_
          intro he
          exact hnd.1 (he ▸ List.mem_map.mpr ⟨r, h, rfl⟩)
        simp only [List.filter_cons, hne, Bool.false_eq_true, if_false]
        exact ih hnd.2 h

theorem most_recent_of_unique (results : List LaunchResult)
    (hnd : (results.map (fun r => r.app_id)).Nodup)
    (r : LaunchResult) (hr : r ∈ results) :
    most_recent_result results r.app_id = some r := by
  rw [most_recent_result, filter_app_id_singleton results hnd r hr]
  rfl

theorem contains_strings_iff (l : List String) (s : String) :
    l.contains s = true ↔ s ∈ l := by
  simp [List.contains, List.elem_eq_mem]

/-- C8 (amended): for every workspace and every prior results list holding
exactly one entry per workspace app (as a launch pass produces), the retry
pass re-attempts exactly those apps whose unique — hence most recent — result
had `success = false`; the entries it keeps are exactly the prior successful
entries, unchanged and in order; and afterwards the results list contains
exactly one entry per original app id.  (With duplicate entries per id, the
code keys on *any* failed entry, not the most recent one.) -/
theorem c8_amended (ws : Workspace) (results : List LaunchResult)
    (envOf : String → AppLaunchEnv)
    (hids : results.map (fun r => r.app_id) = ws.apps.map (fun a => a.id))
    (hnd : (ws.apps.map (fun a => a.id)).Nodup) :
    (∀ a ∈ ws.apps,
      (a ∈ retried_apps ws results ↔
        ∃ r, most_recent_result results a.id = some r ∧ r.success = false)) ∧
      results.filter (fun r => !((get_failed_ids results).contains r.app_id)) =
        results.filter (fun r => r.success) ∧
      (∀ i ∈ results.map (fun r => r.app_id),
        ((retry_failed_apps ws results envOf).1.map (fun r => r.app_id)).count i = 1) := by
  have hndR : (results.map (fun r => r.app_id)).Nodup := by rw [hids]; exact hnd
  have hb : results.filter (fun r => !((get_failed_ids results).contains r.app_id)) =
      results.filter (fun r => r.success) := by
    refine List.filter_congr ?_
    intro r hr
    have hiff := mem_failed_ids_iff results hndR r hr
    cases hs : r.success
    · have hmem : r.app_id ∈ get_failed_ids results := hiff.mpr hs
      have : (get_failed_ids results).contains r.app_id = true :=
        (contains_strings_iff _ _).mpr hmem
      rw [this]; rfl
    · have hmem : r.app_id ∉ get_failed_ids results := by
        intro hmem
        rw [hiff.mp hmem] at hs; cases hs
      have : (get_failed_ids results).contains r.app_id = false := by
        cases hc : (get_failed_ids results).contains r.app_id
        · rfl
        · exact absurd ((contains_strings_iff _ _).mp hc) hmem
      rw [this]; rfl
  refine ⟨?_, hb, ?_⟩
  · intro a ha
    have hmemid : a.id ∈ results.map (fun r => r.app_id) := by
      rw [hids]; exact List.mem_map.mpr ⟨a, ha, rfl⟩
    obtain ⟨r, hr, hrid⟩ := List.mem_map.mp hmemid
    have hmr0 : most_recent_result results a.id = some r := by
      rw [← hrid]; exact most_recent_of_unique results hndR r hr
    constructor
    · intro hmem
      have hcont := (List.mem_filter.mp hmem).2
      have hin : a.id ∈ get_failed_ids results :=
        (contains_strings_iff _ _).mp hcont
      have hfail : r.success = false :=
        (mem_failed_ids_iff results hndR r hr).mp (hrid ▸ hin)
      exact ⟨r, hmr0, hfail⟩
    · rintro ⟨r2, hmr, hr2f⟩
      rw [hmr0] at hmr
      have hr2 : r2 = r := (Option.some.inj hmr).symm
      rw [hr2] at hr2f
      have hin : a.id ∈ get_failed_ids results :=
        hrid ▸ (mem_failed_ids_iff results hndR r hr).mpr hr2f
      exact List.mem_filter.mpr ⟨ha, (contains_strings_iff _ _).mpr hin⟩
  · intro i hi
    obtain ⟨r, hr, hrid⟩ := List.mem_map.mp hi
    by_cases hE : (get_failed_ids results).isEmpty
    · have heq : retry_failed_apps ws results envOf = (results, true) := by
        simp [retry_failed_apps, hE]
      rw [heq]
      exact List.count_eq_one_of_mem hndR hi
    · have hfinal : (retry_failed_apps ws results envOf).1 =
          results.filter (fun r => !((get_failed_ids results).contains r.app_id)) ++
            (ws.apps.filter (fun a => (get_failed_ids results).contains a.id)).map
              (fun a => (launch_app (envOf a.id) a a.virtual_desktop false).1) := by
        simp [retry_failed_apps, hE]
      have hfreshids : ((ws.apps.filter
            (fun a => (get_failed_ids results).contains a.id)).map
              (fun a => (launch_app (envOf a.id) a a.virtual_desktop false).1)).map
                (fun r => r.app_id) =
          (ws.apps.filter (fun a => (get_failed_ids results).contains a.id)).map
            (fun a => a.id) := by
        rw [List.map_map]
        exact List.map_congr_left
          (fun a _ => launch_app_app_id (envOf a.id) a a.virtual_desktop false)
      rw [hfinal, List.map_append, hb, hfreshids, List.count_append]
      have hndKept : ((results.filter (fun r => r.success)).map
          (fun r => r.app_id)).Nodup :=
        List.Nodup.sublist (List.Sublist.map _ (List.filter_sublist results)) hndR
      have hndFresh : ((ws.apps.filter
          (fun a => (get_failed_ids results).contains a.id)).map
            (fun a => a.id)).Nodup :=
        List.Nodup.sublist (List.Sublist.map _ (List.filter_sublist ws.apps)) hnd
      cases hs : r.success
      · have hkept0 : i ∉ (results.filter (fun r => r.success)).map
            (fun r => r.app_id) := by
          intro hmem
          obtain ⟨x, hxf, hxid⟩ := List.mem_map.mp hmem
          have hxr : x = r := List.inj_on_of_nodup_map hndR
            (List.mem_filter.mp hxf).1 hr (hxid.trans hrid.symm)
          have := (List.mem_filter.mp hxf).2
          rw [hxr, hs] at this; cases this
        have hfr1 : i ∈ (ws.apps.filter
            (fun a => (get_failed_ids results).contains a.id)).map
              (fun a => a.id) := by
          have hmemid : i ∈ ws.apps.map (fun a => a.id) := by rw [← hids]; exact hi
          obtain ⟨a, ha, haid⟩ := List.mem_map.mp hmemid
          have hin : a.id ∈ get_failed_ids results := by
            rw [haid, ← hrid]
            exact (mem_failed_ids_iff results hndR r hr).mpr hs
          exact List.mem_map.mpr
            ⟨a, List.mem_filter.mpr ⟨ha, (contains_strings_iff _ _).mpr hin⟩, haid⟩
        rw [List.count_eq_zero.mpr hkept0, List.count_eq_one_of_mem hndFresh hfr1]
      · have hkept1 : i ∈ (results.filter (fun r => r.success)).map
            (fun r => r.app_id) :=
          List.mem_map.mpr ⟨r, List.mem_filter.mpr ⟨hr, hs⟩, hrid⟩
        have hfr0 : i ∉ (ws.apps.filter
            (fun a => (get_failed_ids results).contains a.id)).map
              (fun a => a.id) := by
          intro hmem
          obtain ⟨a, haf, haid⟩ := List.mem_map.mp hmem
          have hin : a.id ∈ get_failed_ids results :=
            (contains_strings_iff _ _).mp (List.mem_filter.mp haf).2
          rw [haid, ← hrid] at hin
          rw [(mem_failed_ids_iff results hndR r hr).mp hin] at hs
          cases hs
        rw [List.count_eq_one_of_mem hndKept hkept1, List.count_eq_zero.mpr hfr0]

/-- The app `"c"` of the C8 witness. -/
def appC : AppInstance := ⟨"c", "C:/c.exe", [], none, 0, ⟨0, 0, 800, 600⟩⟩

/-- A two-app workspace for the C8 witness. -/
def wsAC : Workspace := ⟨"w", "", [appA, appC]⟩

/-- One prior entry per app: `"a"` failed, `"c"` succeeded. -/
def resultsAC : List LaunchResult :=
  [⟨"a", false, none, none, some "boom"⟩, ⟨"c", true, some 3, some 9, none⟩]

/-- Witness for C8 (amended) at the spec's own scenario. -/
theorem c8_witness :
    (∀ a ∈ wsAC.apps,
      (a ∈ retried_apps wsAC resultsAC ↔
        ∃ r, most_recent_result resultsAC a.id = some r ∧ r.success = false)) ∧
      resultsAC.filter (fun r => !((get_failed_ids resultsAC).contains r.app_id)) =
        resultsAC.filter (fun r => r.success) ∧
      (∀ i ∈ resultsAC.map (fun r => r.app_id),
        ((retry_failed_apps wsAC resultsAC (fun _ => envNoWindow)).1.map
          (fun r => r.app_id)).count i = 1) :=
  c8_amended wsAC resultsAC (fun _ => envNoWindow) rfl (by decide)

end WorkspaceManager
